import Mathlib

/-!
Shallow embedding of the Lyra prompt optimizer (src/lyra/optimizer.py).

Strings are modelled as Lean `String` (lists of characters); the Python
string operations used by the source (`str.split()`, `str.split('.')`,
`str.lower()`, `str.strip()`, substring tests with `in`, and the few
regular expressions, all of which are plain word-alternations) are
modelled by the executable helpers below, faithful to CPython semantics
on ASCII text.  The only Python operation in the pipeline that could
raise is the `word[0]` indexing in `_extract_entities`; it is modelled
with `Option`, and the whole pipeline is `Option`-valued on top of it.
-/

/-! ### Python string primitives -/

/-- Character-list version of Python `str.lower()` (ASCII). -/
def lowerL (s : List Char) : List Char := s.map Char.toLower

/-- Python `str.lower()`. -/
def pyLower (s : String) : String := String.mk (lowerL s.data)

/-- Does the character list start with the given pattern? -/
def startsWithL : List Char → List Char → Bool
  | _, [] => true
  | [], _ :: _ => false
  | a :: s, b :: w => (a == b) && startsWithL s w

/-- Substring occurrence test on character lists (Python `pat in s`). -/
def containsL : List Char → List Char → Bool
  | [], pat => startsWithL [] pat
  | s@(_ :: t), pat => startsWithL s pat || containsL t pat

/-- Python substring test `pat in s`. -/
def strContains (s pat : String) : Bool := containsL s.data pat.data

/-- Python `any(w in s for w in ws)`. -/
def containsAnyOf (s : String) (ws : List String) : Bool :=
  ws.any (fun w => strContains s w)

/-- Split on `'.'` keeping empty pieces — Python `s.split('.')`.
The result is never the empty list, exactly as in Python. -/
def splitOnDot : List Char → List (List Char)
  | [] => [[]]
  | c :: rest =>
    if c == '.' then [] :: splitOnDot rest
    else
      match splitOnDot rest with
      | [] => [[c]]
      | r :: rs => (c :: r) :: rs

/-- Split on whitespace keeping empty pieces (helper for `str.split()`). -/
def splitWsRaw : List Char → List (List Char)
  | [] => [[]]
  | c :: rest =>
    if c.isWhitespace then [] :: splitWsRaw rest
    else
      match splitWsRaw rest with
      | [] => [[c]]
      | r :: rs => (c :: r) :: rs

/-- Python `str.split()` with no argument: whitespace-delimited words,
empty pieces dropped. -/
def pyWordsL (s : List Char) : List (List Char) :=
  (splitWsRaw s).filter (fun w => !w.isEmpty)

/-- Python `len(s.split())`. -/
def wordCount (s : String) : Nat := (pyWordsL s.data).length

/-- Strip leading and trailing whitespace — Python `str.strip()`. -/
def stripWs (s : List Char) : List Char :=
  ((s.dropWhile Char.isWhitespace).reverse.dropWhile Char.isWhitespace).reverse

/-- Python `str.strip('.,!?;:')`. -/
def stripPunctEnds (w : List Char) : List Char :=
  let punct : List Char := ['.', ',', '!', '?', ';', ':']
  ((w.dropWhile (punct.contains ·)).reverse.dropWhile (punct.contains ·)).reverse

/-- Python `sep.join(parts)`. -/
def joinSep (sep : String) : List String → String
  | [] => ""
  | [x] => x
  | x :: y :: xs => x ++ sep ++ joinSep sep (y :: xs)

/-- Deduplicate keeping the first occurrence.  Models Python
`list(set(entities))`, whose order the spec leaves unspecified and
documents as reasonable to fix as insertion order of first occurrence. -/
def dedupFirst (l : List String) : List String :=
  l.foldl (fun acc x => if acc.contains x then acc else acc ++ [x]) []

/-! ### Regular-expression fragments used by the source

Every regex in the source is either a plain alternation of literal
words (substring semantics) or a word-boundary alternation
`\b(w1|...|wk)\b`, plus the one length pattern
`(\d+)\s*(words|pages|paragraphs|sentences)`.  These are modelled
directly. -/

/-- Python regex `\w` on ASCII text. -/
def isWordChar (c : Char) : Bool := c.isAlphanum || c == '_'

/-- No word character right after the first `n` characters (regex `\b`
after a match that ends in a word character). -/
def boundaryAfter (s : List Char) (n : Nat) : Bool :=
  match s.drop n with
  | [] => true
  | d :: _ => !isWordChar d

/-- Scan for the leftmost position where one of the words `ws` occurs as
a whole word (`\b...\b`); returns the suffix starting there.  The Bool
argument records whether the previous character was a word character. -/
def findWordIn (ws : List (List Char)) : Bool → List Char → Option (List Char)
  | _, [] => none
  | prevW, s@(c :: rest) =>
    if !prevW && ws.any (fun w => startsWithL s w && boundaryAfter s w.length) then
      some s
    else findWordIn ws (isWordChar c) rest

/-- Whole-word occurrence test, regex `re.search(r'\b(w1|...|wk)\b', s)`. -/
def hasWholeWordAny (ws : List String) (s : List Char) : Bool :=
  (findWordIn (ws.map String.data) false s).isSome

/-- Leftmost match of a plain alternation of literal words: at the
leftmost matching position, the first alternative (in pattern order)
that matches there is returned, as in Python `re`. -/
def findFirstAltIn (alts : List (List Char)) : List Char → Option (List Char)
  | [] => none
  | s@(_ :: rest) =>
    match alts.find? (fun w => startsWithL s w) with
    | some w => some w
    | none => findFirstAltIn alts rest

/-- The unit alternatives of the length requirement pattern. -/
def lengthUnits : List String := ["words", "pages", "paragraphs", "sentences"]

/-- Leftmost match of `(\d+)\s*(words|pages|paragraphs|sentences)`,
returning the matched text. -/
def matchLengthPat : List Char → Option (List Char)
  | [] => none
  | s@(c :: rest) =>
    if c.isDigit then
      let ds := s.takeWhile Char.isDigit
      let afterDs := s.dropWhile Char.isDigit
      let ws := afterDs.takeWhile Char.isWhitespace
      let afterWs := afterDs.dropWhile Char.isWhitespace
      match (lengthUnits.map String.data).find? (fun u => startsWithL afterWs u) with
      | some u => some (ds ++ ws ++ u)
      | none => matchLengthPat rest
    else matchLengthPat rest

/-! ### Data model (optimizer.py enums and dataclasses) -/

/-- Supported AI platforms. -/
inductive AIPlatform where
  | CHATGPT
  | CLAUDE
  | GEMINI
  | OTHER
deriving DecidableEq, Repr

/-- Operating modes. -/
inductive Mode where
  | DETAIL
  | BASIC
deriving DecidableEq, Repr

/-- Types of tasks for optimization. -/
inductive TaskType where
  | CREATIVE
  | TECHNICAL
  | ANALYTICAL
  | EDUCATIONAL
  | COMPLEX
  | SIMPLE
deriving DecidableEq, Repr

/-- The `.value` string of a `TaskType` member. -/
def taskTypeValue : TaskType → String
  | TaskType.CREATIVE => "creative"
  | TaskType.TECHNICAL => "technical"
  | TaskType.ANALYTICAL => "analytical"
  | TaskType.EDUCATIONAL => "educational"
  | TaskType.COMPLEX => "complex"
  | TaskType.SIMPLE => "simple"

/-- Results from prompt analysis (dataclass `PromptAnalysis`).
`context_level` is a string (`"High"`, `"Medium"`, `"Low"`) as in the
source. -/
structure PromptAnalysis where
  core_intent : String
  key_entities : List String
  context_level : String
  output_requirements : List String
  constraints : List String
  clarity_issues : List String
  task_type : TaskType
  complexity_score : Int
deriving DecidableEq, Repr

/-- Results from prompt optimization (dataclass `OptimizationResult`);
`pro_tip` defaults to `None`. -/
structure OptimizationResult where
  optimized_prompt : String
  improvements : List String
  techniques_applied : List String
  pro_tip : Option String := none
deriving DecidableEq, Repr

/-- The diagnosis dictionary built by `diagnose` (keys
`critical_issues`, `improvements_needed`, `strengths`). -/
structure Diagnosis where
  critical_issues : List String
  improvements_needed : List String
  strengths : List String
deriving DecidableEq, Repr

/-- Instance state of `LyraOptimizer` set by `__init__`: the two fields
are never read by the pipeline. -/
structure LyraState where
  platform : Option AIPlatform
  mode : Option Mode
deriving DecidableEq, Repr

/-- The state produced by `LyraOptimizer.__init__`. -/
def initState : LyraState := { platform := none, mode := none }

/-! ### 1. DECONSTRUCT -/

/-- The five ordered verb groups of `_extract_intent`'s
`action_patterns` (each pattern is `\b(v1|...|vk)\b.*`). -/
def action_groups : List (List String) :=
  [["write", "create", "generate", "make", "build", "develop", "design", "draft", "compose"],
   ["analyze", "review", "evaluate", "assess", "examine", "study"],
   ["explain", "describe", "summarize", "outline", "clarify"],
   ["help", "assist", "guide", "support"],
   ["improve", "optimize", "enhance", "refine", "fix"]]

/-- Try the verb groups in order; for the first group with a whole-word
occurrence, return the suffix starting at the leftmost occurrence. -/
def firstGroupMatch : List (List String) → List Char → Option (List Char)
  | [], _ => none
  | g :: gs, s =>
    match findWordIn (g.map String.data) false s with
    | some suf => some suf
    | none => firstGroupMatch gs s

/-- Regex `.` does not match a newline: `match.group(0)` for a pattern
ending in `.*` extends from the match start to the end of the line. -/
def takeUntilNL : List Char → List Char
  | [] => []
  | c :: rest => if c == '\n' then [] else c :: takeUntilNL rest

/-- `_extract_intent`: first matching action pattern wins
(`match.group(0).strip()` on the lowered prompt); otherwise the text
before the first `'.'`, stripped.  The `prompt[:100]` branch is kept
exactly as in the source (it is guarded by the emptiness of
`prompt.split('.')`). -/
def extract_intent (prompt : String) : String :=
  let pl := lowerL prompt.data
  match firstGroupMatch action_groups pl with
  | some suf => String.mk (stripWs (takeUntilNL suf))
  | none =>
    match splitOnDot prompt.data with
    | [] => String.mk (prompt.data.take 100)
    | s0 :: _ => String.mk (stripWs s0)

/-- The fixed keyword vocabulary of `_extract_entities`. -/
def entity_keywords : List String :=
  ["email", "report", "code", "essay", "article", "blog", "resume",
   "letter", "proposal", "presentation", "analysis", "summary",
   "review", "plan", "strategy", "design", "system"]

/-- Stopwords excluded from capitalized-word entities. -/
def entity_stopwords : List String := ["the", "a", "an", "i"]

/-- The capitalized-word pass of `_extract_entities`.  Python indexes
`word[0]`, which would raise on an empty word; that partiality is the
`none` case. -/
def capEntities : List (List Char) → Option (List String)
  | [] => some []
  | w :: ws =>
    match w with
    | [] => none
    | c :: _ =>
      (capEntities ws).map fun rest =>
        if c.isUpper && !(entity_stopwords.contains (String.mk (lowerL w))) then
          String.mk (stripPunctEnds w) :: rest
        else rest

/-- `_extract_entities`: capitalized words (minus stopwords, stripped of
trailing punctuation), then keyword hits, deduplicated (set semantics,
modelled as first-occurrence order) and capped at 10. -/
def extract_entities (prompt : String) : Option (List String) :=
  (capEntities (pyWordsL prompt.data)).map fun caps =>
    let kws := entity_keywords.filter (fun k => strContains (pyLower prompt) k)
    (dedupFirst (caps ++ kws)).take 10

/-- `_assess_context`. -/
def assess_context (prompt : String) : String :=
  let word_count := wordCount prompt
  let has_details := containsAnyOf (pyLower prompt)
    ["because", "for", "about", "regarding", "context"]
  if word_count > 50 ∧ has_details then "High"
  else if word_count > 20 ∨ has_details then "Medium"
  else "Low"

/-- `_extract_requirements`: the five fixed categories in dict order
(length, format, tone, audience, style); each emits
`"<Category>: <matched text>"` when its pattern matches the lowered
prompt. -/
def extract_requirements (prompt : String) : List String :=
  let pl := lowerL prompt.data
  let reqs : List String := []
  let reqs := match matchLengthPat pl with
    | some m => reqs ++ ["Length: " ++ String.mk m]
    | none => reqs
  let reqs := match findFirstAltIn
      (["format", "formatted", "structure", "template"].map String.data) pl with
    | some m => reqs ++ ["Format: " ++ String.mk m]
    | none => reqs
  let reqs := match findFirstAltIn
      (["tone", "formal", "casual", "professional", "friendly", "persuasive"].map String.data) pl with
    | some m => reqs ++ ["Tone: " ++ String.mk m]
    | none => reqs
  let reqs := match findFirstAltIn
      (["audience", "for", "target", "readers"].map String.data) pl with
    | some m => reqs ++ ["Audience: " ++ String.mk m]
    | none => reqs
  let reqs := match findFirstAltIn
      (["style", "writing style", "approach"].map String.data) pl with
    | some m => reqs ++ ["Style: " ++ String.mk m]
    | none => reqs
  reqs

/-- Constraint indicator substrings of `_extract_constraints`. -/
def constraint_indicators : List String :=
  ["must", "should", "need to", "required", "limit", "only",
   "avoid", "without", "don\x27t", "cannot", "restriction"]

/-- `_extract_constraints`: split on `'.'` and keep (stripped) every
sentence containing a constraint indicator. -/
def extract_constraints (prompt : String) : List String :=
  ((splitOnDot prompt.data).filter
      (fun sent => constraint_indicators.any
        (fun ind => containsL (lowerL sent) ind.data))).map
    (fun sent => String.mk (stripWs sent))

/-- `_identify_clarity_issues`: the four independent checks, in source
order. -/
def identify_clarity_issues (prompt : String) : List String :=
  let pl := pyLower prompt
  let issues : List String := []
  let issues := if containsAnyOf pl
      ["something", "anything", "stuff", "thing", "somehow", "whatever"] then
    issues ++ ["Contains vague terms"] else issues
  let issues := if wordCount prompt < 5 then
    issues ++ ["Very brief - may lack necessary context"] else issues
  let issues := if !(containsAnyOf pl
      ["format", "structure", "output", "return", "give me", "provide"]) then
    issues ++ ["Output format not specified"] else issues
  let issues := if hasWholeWordAny ["it", "this", "that", "they", "them"] pl.data then
    issues ++ ["Contains potentially ambiguous pronouns"] else issues
  issues

/-- Creative keyword set of `_determine_task_type`. -/
def creative_keywords : List String :=
  ["story", "creative", "imagine", "invent", "design", "brainstorm",
   "idea", "novel", "poem", "art"]

/-- Technical keyword set of `_determine_task_type`. -/
def technical_keywords : List String :=
  ["code", "program", "debug", "algorithm", "function", "api",
   "technical", "system", "implementation", "architecture"]

/-- Analytical keyword set of `_determine_task_type`. -/
def analytical_keywords : List String :=
  ["analyze", "compare", "evaluate", "assess", "research",
   "data", "statistics", "metrics", "performance"]

/-- Educational keyword set of `_determine_task_type`. -/
def educational_keywords : List String :=
  ["explain", "teach", "learn", "understand", "tutorial",
   "lesson", "guide", "instruction", "how to"]

/-- `_determine_task_type`: fixed priority order Creative → Technical →
Analytical → Educational, then Complex/Simple by size.  The `intent`
argument is accepted and ignored, as in the source. -/
def determine_task_type (prompt : String) (_intent : String) : TaskType :=
  let pl := pyLower prompt
  if containsAnyOf pl creative_keywords then TaskType.CREATIVE
  else if containsAnyOf pl technical_keywords then TaskType.TECHNICAL
  else if containsAnyOf pl analytical_keywords then TaskType.ANALYTICAL
  else if containsAnyOf pl educational_keywords then TaskType.EDUCATIONAL
  else if wordCount prompt > 30 ∨ (splitOnDot prompt.data).length > 2 then TaskType.COMPLEX
  else TaskType.SIMPLE

/-- `_calculate_complexity`: base 5; length adjustment; one point per
clarity issue; task-type adjustment; clamp to `[0, 10]`. -/
def calculate_complexity (prompt : String) (clarity_issues : List String)
    (task_type : TaskType) : Int :=
  let score : Int := 5
  let word_count := wordCount prompt
  let score := if word_count < 10 then score - 2
    else if word_count > 50 then score + 2 else score
  let score := score + (clarity_issues.length : Int)
  let score := if task_type = TaskType.TECHNICAL ∨ task_type = TaskType.COMPLEX then score + 2
    else if task_type = TaskType.SIMPLE then score - 2 else score
  max 0 (min 10 score)

/-- `deconstruct`: assemble the `PromptAnalysis`.  `Option`-valued only
through `_extract_entities`; the instance state is never read. -/
def deconstruct (_self : LyraState) (prompt : String) : Option PromptAnalysis :=
  (extract_entities prompt).map fun key_entities =>
    let core_intent := extract_intent prompt
    let clarity_issues := identify_clarity_issues prompt
    let task_type := determine_task_type prompt core_intent
    { core_intent := core_intent,
      key_entities := key_entities,
      context_level := assess_context prompt,
      output_requirements := extract_requirements prompt,
      constraints := extract_constraints prompt,
      clarity_issues := clarity_issues,
      task_type := task_type,
      complexity_score := calculate_complexity prompt clarity_issues task_type }

/-- Placeholder analysis used only to express the total wrapper
`deconstructT`; never reached (see `deconstruct_isSome`). -/
def defaultAnalysis : PromptAnalysis :=
  { core_intent := "", key_entities := [], context_level := "",
    output_requirements := [], constraints := [], clarity_issues := [],
    task_type := TaskType.SIMPLE, complexity_score := 0 }

/-- Total view of `deconstruct` (justified by `deconstruct_isSome`). -/
def deconstructT (st : LyraState) (prompt : String) : PromptAnalysis :=
  (deconstruct st prompt).getD defaultAnalysis

/-! ### 2. DIAGNOSE -/

/-- `diagnose`: pure derivation of critical issues, needed improvements
and strengths from the analysis. -/
def diagnose (analysis : PromptAnalysis) : Diagnosis :=
  let critical_issues :=
    if !analysis.clarity_issues.isEmpty then analysis.clarity_issues else []
  let improvements_needed : List String := []
  let improvements_needed :=
    if analysis.key_entities.isEmpty ∨ analysis.key_entities.length < 2 then
      improvements_needed ++ ["Add more specific details and context"]
    else improvements_needed
  let improvements_needed :=
    if analysis.output_requirements.isEmpty then
      improvements_needed ++ ["Specify desired output format"]
    else improvements_needed
  let improvements_needed :=
    if analysis.context_level = "Low" then
      improvements_needed ++ ["Provide more context and background"]
    else improvements_needed
  let improvements_needed :=
    if analysis.complexity_score > 7 ∧ analysis.constraints.isEmpty then
      improvements_needed ++ ["Break down into steps or add constraints"]
    else improvements_needed
  let strengths : List String := []
  let strengths :=
    if analysis.context_level = "High" then
      strengths ++ ["Good context provided"]
    else strengths
  let strengths :=
    if !analysis.constraints.isEmpty then
      strengths ++ ["Clear constraints specified"]
    else strengths
  let strengths :=
    if !analysis.output_requirements.isEmpty then
      strengths ++ ["Output requirements defined"]
    else strengths
  { critical_issues := critical_issues,
    improvements_needed := improvements_needed,
    strengths := strengths }

/-! ### 3. DEVELOP -/

/-- `_select_techniques`. -/
def select_techniques (analysis : PromptAnalysis) (mode : Mode) : List String :=
  let techniques := ["role_assignment", "task_decomposition"]
  let techniques := if mode = Mode.DETAIL then
    techniques ++ ["context_layering", "output_specs"] else techniques
  let techniques := if analysis.complexity_score > 7 then
    techniques ++ ["chain_of_thought"] else techniques
  let techniques := if analysis.task_type = TaskType.CREATIVE then
    techniques ++ ["multi_perspective"] else techniques
  let techniques := if analysis.task_type = TaskType.TECHNICAL then
    techniques ++ ["constraint_based"] else techniques
  let techniques := if analysis.task_type = TaskType.EDUCATIONAL then
    techniques ++ ["few_shot"] else techniques
  techniques

/-- `_assign_role`: the six persona strings keyed by task type (the
dictionary contains every key, so the `.get` default is never used). -/
def assign_role (task_type : TaskType) : String :=
  match task_type with
  | TaskType.CREATIVE =>
    "You are a creative expert with a talent for innovative thinking and storytelling."
  | TaskType.TECHNICAL =>
    "You are an experienced technical specialist with deep expertise in software development and problem-solving."
  | TaskType.ANALYTICAL =>
    "You are a data analyst and critical thinker skilled at breaking down complex information."
  | TaskType.EDUCATIONAL =>
    "You are an expert educator who excels at explaining concepts clearly and effectively."
  | TaskType.COMPLEX =>
    "You are a strategic thinker capable of handling multifaceted challenges systematically."
  | TaskType.SIMPLE =>
    "You are a helpful assistant focused on providing clear, concise responses."

/-- `_enhance_context`. -/
def enhance_context (_prompt : String) (analysis : PromptAnalysis) : String :=
  if analysis.context_level = "High" then ""
  else
    let context_prompt := "\n**Context:** "
    if !analysis.key_entities.isEmpty then
      context_prompt ++ "This task involves " ++
        joinSep ", " (analysis.key_entities.take 3) ++ ". "
    else context_prompt

/-- `_clarify_task`. -/
def clarify_task (_prompt : String) (analysis : PromptAnalysis) : String :=
  let task := "**Task:** " ++ analysis.core_intent
  if !analysis.key_entities.isEmpty ∧ analysis.key_entities.length > 0 then
    task ++ "\n**Focus areas:** " ++ joinSep ", " (analysis.key_entities.take 5)
  else task

/-- `_create_output_spec`. -/
def create_output_spec (analysis : PromptAnalysis) (_platform : AIPlatform) : String :=
  let spec := "\n**Output Requirements:**"
  if !analysis.output_requirements.isEmpty then
    analysis.output_requirements.foldl (fun acc req => acc ++ "\n- " ++ req) spec
  else
    if analysis.task_type = TaskType.TECHNICAL then
      spec ++ "\n- Clear, well-commented code" ++ "\n- Explanation of approach"
    else if analysis.task_type = TaskType.CREATIVE then
      spec ++ "\n- Original and engaging content" ++ "\n- Appropriate tone and style"
    else
      spec ++ "\n- Clear and well-structured response" ++ "\n- Specific and actionable information"

/-- `_add_technical_constraints`. -/
def add_technical_constraints (_analysis : PromptAnalysis) : String :=
  "\n**Technical Requirements:**" ++
  "\n- Follow best practices and coding standards" ++
  "\n- Consider edge cases and error handling" ++
  "\n- Optimize for performance and maintainability"

/-- `_apply_platform_formatting`. -/
def apply_platform_formatting (prompt : String) (platform : AIPlatform)
    (analysis : PromptAnalysis) : String :=
  match platform with
  | AIPlatform.CHATGPT => prompt
  | AIPlatform.CLAUDE =>
    if analysis.complexity_score > 7 then
      prompt ++ "\n\n**Approach:** Break this down systematically and explain your reasoning."
    else prompt
  | AIPlatform.GEMINI =>
    if analysis.task_type = TaskType.CREATIVE then
      prompt ++ "\n\nFeel free to explore creative angles and multiple possibilities."
    else prompt
  | AIPlatform.OTHER => prompt

/-- `develop`: assemble the optimized prompt parts in source order and
join them with blank lines, then apply platform formatting. -/
def develop (prompt : String) (analysis : PromptAnalysis)
    (platform : AIPlatform) (mode : Mode) : String :=
  let techniques := select_techniques analysis mode
  let parts : List String := []
  let parts := if techniques.contains "role_assignment" then
    parts ++ [assign_role analysis.task_type] else parts
  let parts := if techniques.contains "context_layering" then
      (let context := enhance_context prompt analysis
       if context ≠ "" then parts ++ [context] else parts)
    else parts
  let parts := parts ++ [clarify_task prompt analysis]
  let parts := if techniques.contains "output_specs" then
    parts ++ [create_output_spec analysis platform] else parts
  let parts :=
    if analysis.task_type = TaskType.CREATIVE ∧ techniques.contains "multi_perspective" then
      parts ++ ["\nConsider multiple perspectives and creative angles."]
    else if analysis.task_type = TaskType.TECHNICAL ∧ techniques.contains "constraint_based" then
      parts ++ [add_technical_constraints analysis]
    else if analysis.task_type = TaskType.EDUCATIONAL ∧ techniques.contains "few_shot" then
      parts ++ ["\nProvide clear examples and step-by-step explanations."]
    else if analysis.complexity_score > 7 ∧ techniques.contains "chain_of_thought" then
      parts ++ ["\nThink through this step-by-step, showing your reasoning."]
    else parts
  let parts :=
    if !analysis.constraints.isEmpty ∧ mode = Mode.DETAIL then
      (parts ++ ["\n**Constraints:**"]) ++ analysis.constraints.map (fun c => "- " ++ c)
    else parts
  apply_platform_formatting (joinSep "\n\n" parts) platform analysis

/-! ### 4. DELIVER -/

/-- `_generate_pro_tip`: the iteration tip above complexity 7, else the
task-type table with the generic default for `SIMPLE` (the only type
absent from the table). -/
def generate_pro_tip (analysis : PromptAnalysis) (_mode : Mode) : String :=
  if analysis.complexity_score > 7 then
    "For complex requests, consider iterating: start with a draft and refine based on the output."
  else
    match analysis.task_type with
    | TaskType.CREATIVE =>
      "For creative tasks, consider asking for multiple variations to find the best fit."
    | TaskType.TECHNICAL =>
      "When asking for code, specify your programming language, version, and any frameworks upfront."
    | TaskType.ANALYTICAL =>
      "For analysis tasks, provide sample data or clear criteria for evaluation."
    | TaskType.EDUCATIONAL =>
      "Learning works best when you ask follow-up questions and request examples."
    | TaskType.COMPLEX =>
      "Break complex tasks into smaller subtasks for better results."
    | TaskType.SIMPLE =>
      "Be specific about what success looks like for your request."

/-- `deliver`: improvements list plus the pro tip, packaged as the
result. -/
def deliver (optimized_prompt : String) (analysis : PromptAnalysis)
    (diagnosis : Diagnosis) (techniques : List String) (mode : Mode) :
    OptimizationResult :=
  let improvements : List String := []
  let improvements :=
    if !diagnosis.critical_issues.isEmpty then
      improvements ++
        ["Fixed " ++ toString diagnosis.critical_issues.length ++ " clarity issues"]
    else improvements
  let joined := joinSep " " diagnosis.improvements_needed
  let improvements :=
    if strContains joined "Add more specific details" then
      improvements ++ ["Enhanced specificity and detail"]
    else improvements
  let improvements :=
    if strContains joined "Specify desired output format" then
      improvements ++ ["Added clear output specifications"]
    else improvements
  let improvements :=
    if strContains joined "Provide more context" then
      improvements ++ ["Layered additional context"]
    else improvements
  let improvements :=
    improvements ++ ["Optimized for " ++ taskTypeValue analysis.task_type ++ " tasks"]
  let pro_tip := generate_pro_tip analysis mode
  { optimized_prompt := optimized_prompt,
    improvements := improvements,
    techniques_applied := techniques,
    pro_tip := some pro_tip }

/-! ### PUBLIC API -/

/-- `_parse_platform`: case-insensitive substring matching in the fixed
order chatgpt/gpt, claude, gemini, default `OTHER`. -/
def parse_platform (platform : String) : AIPlatform :=
  let pl := pyLower platform
  if strContains pl "chatgpt" ∨ strContains pl "gpt" then AIPlatform.CHATGPT
  else if strContains pl "claude" then AIPlatform.CLAUDE
  else if strContains pl "gemini" then AIPlatform.GEMINI
  else AIPlatform.OTHER

/-- `_parse_mode`. -/
def parse_mode (mode : String) : Mode :=
  if strContains (pyLower mode) "detail" then Mode.DETAIL else Mode.BASIC

/-- `_auto_detect_mode`. -/
def auto_detect_mode (prompt : String) : Mode :=
  let word_count := wordCount prompt
  if word_count < 15 ∧ containsAnyOf (pyLower prompt) ["write", "create", "make"] then
    Mode.BASIC
  else if word_count > 25 ∨ containsAnyOf (pyLower prompt)
      ["professional", "business", "technical", "comprehensive", "detailed"] then
    Mode.DETAIL
  else Mode.BASIC

/-- `optimize`: parse the inputs, resolve the `"auto"` sentinel, then
run the 4-D pipeline.  `Option`-valued only through `deconstruct`. -/
def optimize (_self : LyraState) (prompt : String) (platform : String)
    (mode : String) : Option OptimizationResult :=
  let platform_enum := parse_platform platform
  let mode_enum := parse_mode mode
  let mode_enum := if mode = "auto" then auto_detect_mode prompt else mode_enum
  (deconstruct _self prompt).map fun analysis =>
    let diagnosis := diagnose analysis
    let techniques := select_techniques analysis mode_enum
    let optimized_prompt := develop prompt analysis platform_enum mode_enum
    deliver optimized_prompt analysis diagnosis techniques mode_enum

/-- Placeholder result used only to express the total wrapper
`optimizeT`; never reached (see `optimize_isSome`). -/
def defaultResult : OptimizationResult :=
  { optimized_prompt := "", improvements := [], techniques_applied := [] }

/-- Total view of `optimize` (justified by `optimize_isSome`). -/
def optimizeT (st : LyraState) (prompt platform mode : String) :
    OptimizationResult :=
  (optimize st prompt platform mode).getD defaultResult

/-- `generate_clarifying_questions`: four conditional questions in
fixed order, truncated to three. -/
def generate_clarifying_questions (analysis : PromptAnalysis) : List String :=
  let questions : List String := []
  let questions :=
    if analysis.output_requirements.isEmpty then
      questions ++
        ["What format would you like the output in? (e.g., bullet points, paragraph, code)"]
    else questions
  let questions :=
    if analysis.task_type = TaskType.CREATIVE ∨ analysis.task_type = TaskType.EDUCATIONAL then
      let has_audience := analysis.output_requirements.any
        (fun req => strContains (pyLower req) "audience")
      if !has_audience then questions ++ ["Who is the target audience?"] else questions
    else questions
  let questions :=
    if analysis.complexity_score > 7 ∧ analysis.constraints.isEmpty then
      questions ++ ["Are there any specific constraints or requirements I should know about?"]
    else questions
  let has_length := analysis.output_requirements.any
    (fun req => startsWithL req.data "Length:".data)
  let questions :=
    if !has_length ∧ analysis.task_type ≠ TaskType.TECHNICAL then
      questions ++ ["What length are you aiming for?"]
    else questions
  questions.take 3

/-! ### Totality of the pipeline -/

/-- Words produced by Python `str.split()` are never empty. -/
theorem pyWordsL_ne_nil (s : List Char) : ∀ w ∈ pyWordsL s, w ≠ [] := by
  intro w hw hnil
  have h := (List.mem_filter.mp hw).2
  subst hnil
  simp at h

/-- The capitalized-word pass succeeds on any list of nonempty words. -/
theorem capEntities_isSome (ws : List (List Char)) (h : ∀ w ∈ ws, w ≠ []) :
    (capEntities ws).isSome := by
  induction ws with
  | nil => simp [capEntities]
  | cons w ws ih =>
    cases w with
    | nil => exact absurd rfl (h [] (List.mem_cons_self _ _))
    | cons c cs =>
      have h2 := ih (fun x hx => h x (List.mem_cons_of_mem _ hx))
      obtain ⟨l, hl⟩ := Option.isSome_iff_exists.mp h2
      simp [capEntities, hl]

/-- Entity extraction never fails. -/
theorem extract_entities_isSome (p : String) : (extract_entities p).isSome := by
  have h := capEntities_isSome (pyWordsL p.data) (pyWordsL_ne_nil p.data)
  obtain ⟨l, hl⟩ := Option.isSome_iff_exists.mp h
  simp [extract_entities, hl]

/-- Analysis never fails. -/
theorem deconstruct_isSome (st : LyraState) (p : String) :
    (deconstruct st p).isSome := by
  obtain ⟨l, hl⟩ := Option.isSome_iff_exists.mp (extract_entities_isSome p)
  simp [deconstruct, hl]

/-- Optimization never fails. -/
theorem optimize_isSome (st : LyraState) (p pl m : String) :
    (optimize st p pl m).isSome := by
  obtain ⟨a, ha⟩ := Option.isSome_iff_exists.mp (deconstruct_isSome st p)
  simp [optimize, ha]

/-- The total view of `deconstruct`, written out field by field. -/
theorem deconstructT_eq (st : LyraState) (p : String) :
    deconstructT st p =
      { core_intent := extract_intent p,
        key_entities := (extract_entities p).getD [],
        context_level := assess_context p,
        output_requirements := extract_requirements p,
        constraints := extract_constraints p,
        clarity_issues := identify_clarity_issues p,
        task_type := determine_task_type p (extract_intent p),
        complexity_score := calculate_complexity p (identify_clarity_issues p)
          (determine_task_type p (extract_intent p)) } := by
  obtain ⟨es, hes⟩ := Option.isSome_iff_exists.mp (extract_entities_isSome p)
  simp [deconstructT, deconstruct, hes]

/-! ### Arithmetic shape of the complexity score -/

/-- The let-chain of `_calculate_complexity` as a single clamped sum. -/
theorem calculate_complexity_eq (p : String) (issues : List String) (tt : TaskType) :
    calculate_complexity p issues tt =
      max 0 (min 10 ((5 : Int)
        + (if wordCount p < 10 then -2 else if wordCount p > 50 then 2 else 0)
        + (issues.length : Int)
        + (if tt = TaskType.TECHNICAL ∨ tt = TaskType.COMPLEX then 2
           else if tt = TaskType.SIMPLE then -2 else 0))) := by
  simp only [calculate_complexity]
  refine congrArg (fun x => max (0 : Int) (min 10 x)) ?_
  split_ifs <;> ring

/-- The clamp keeps the score inside `[0, 10]`. -/
theorem calculate_complexity_bounds (p : String) (issues : List String) (tt : TaskType) :
    0 ≤ calculate_complexity p issues tt ∧ calculate_complexity p issues tt ≤ 10 := by
  simp only [calculate_complexity]
  exact ⟨le_max_left 0 _, max_le (by norm_num) (min_le_left _ _)⟩

/-! ### Shape of the clarifying-question list -/

/-- The question list is the concatenation of the four conditional
triggers, in source order, truncated to three. -/
theorem generate_clarifying_questions_eq (a : PromptAnalysis) :
    generate_clarifying_questions a =
      ((if a.output_requirements.isEmpty then
          ["What format would you like the output in? (e.g., bullet points, paragraph, code)"]
        else []) ++
       (if a.task_type = TaskType.CREATIVE ∨ a.task_type = TaskType.EDUCATIONAL then
          (if !(a.output_requirements.any
              (fun req => strContains (pyLower req) "audience")) then
            ["Who is the target audience?"]
          else [])
        else []) ++
       (if a.complexity_score > 7 ∧ a.constraints.isEmpty then
          ["Are there any specific constraints or requirements I should know about?"]
        else []) ++
       (if !(a.output_requirements.any
            (fun req => startsWithL req.data "Length:".data)) ∧
           a.task_type ≠ TaskType.TECHNICAL then
          ["What length are you aiming for?"]
        else [])).take 3 := by
  simp only [generate_clarifying_questions]
  split_ifs <;> simp_all

/-- Truncation bounds the question count by three. -/
theorem generate_clarifying_questions_le_three (a : PromptAnalysis) :
    (generate_clarifying_questions a).length ≤ 3 := by
  simp only [generate_clarifying_questions]
  rw [List.length_take]
  exact min_le_left _ _

/-! ### Shape of the pro tip -/

/-- The pro tip is always one of the seven fixed nonempty strings. -/
theorem generate_pro_tip_cases (a : PromptAnalysis) (m : Mode) :
    generate_pro_tip a m ≠ "" ∧
    (generate_pro_tip a m =
        "For complex requests, consider iterating: start with a draft and refine based on the output." ∨
     generate_pro_tip a m =
        "For creative tasks, consider asking for multiple variations to find the best fit." ∨
     generate_pro_tip a m =
        "When asking for code, specify your programming language, version, and any frameworks upfront." ∨
     generate_pro_tip a m =
        "For analysis tasks, provide sample data or clear criteria for evaluation." ∨
     generate_pro_tip a m =
        "Learning works best when you ask follow-up questions and request examples." ∨
     generate_pro_tip a m =
        "Break complex tasks into smaller subtasks for better results." ∨
     generate_pro_tip a m =
        "Be specific about what success looks like for your request.") := by
  simp only [generate_pro_tip]
  split
  · exact ⟨by decide, by simp⟩
  · split <;> exact ⟨by decide, by simp⟩

/-- The first piece of `s.split('.')` is the text before the first
period; in particular the split is never empty. -/
theorem splitOnDot_head (l : List Char) :
    ∃ rest, splitOnDot l = (l.takeWhile (fun c => !(c == '.'))) :: rest := by
  induction l with
  | nil => exact ⟨[], rfl⟩
  | cons c t ih =>
    obtain ⟨rest, hr⟩ := ih
    cases hc : (c == '.') with
    | true =>
      refine ⟨splitOnDot t, ?_⟩
      simp [splitOnDot, hc, List.takeWhile_cons]
    | false =>
      refine ⟨rest, ?_⟩
      simp [splitOnDot, hc, hr, List.takeWhile_cons]

/-! ### Claims -/

/-- C1 counterexample: `analyze("Help")` has complexity score 3, not at
least 5 — the claim omits the −2 adjustment applied because the task
type is Simple. -/
theorem analyze_help_score_counterexample :
    (deconstructT initState "Help").complexity_score = 3 ∧
    ¬(5 ≤ (deconstructT initState "Help").complexity_score) := by
  decide

/-- C1 (amended): `analyze("Help")` reports both the brevity issue and
the missing-output-format issue and classifies the task as Simple, but
its complexity score is 3 = 5 − 2 (short) + 2 (issues) − 2 (Simple),
not at least 5. -/
theorem analyze_help_results :
    "Very brief - may lack necessary context" ∈
      (deconstructT initState "Help").clarity_issues ∧
    "Output format not specified" ∈ (deconstructT initState "Help").clarity_issues ∧
    (deconstructT initState "Help").task_type = TaskType.SIMPLE ∧
    (deconstructT initState "Help").complexity_score = 3 := by
  decide

/-- C2 counterexample: a 101-character prompt with no action verb and no
period; `_extract_intent` returns the whole prompt (length 101), not its
first 100 characters — the `prompt[:100]` branch is unreachable because
`split('.')` never yields an empty list. -/
theorem intent_fallback_counterexample :
    (firstGroupMatch action_groups (lowerL (String.mk (List.replicate 101 'q')).data)).isNone
      = true ∧
    strContains (String.mk (List.replicate 101 'q')) "." = false ∧
    (String.mk (List.replicate 101 'q')).length = 101 ∧
    extract_intent (String.mk (List.replicate 101 'q')) = String.mk (List.replicate 101 'q') ∧
    ¬((extract_intent (String.mk (List.replicate 101 'q'))).length = 100) := by
  decide

/-- C2 (amended): when none of the five verb-group patterns matches,
`_extract_intent` returns the text before the first period, stripped of
surrounding whitespace; since `split('.')` always yields at least one
piece, this also covers period-less prompts (whose whole stripped text
is returned, with no 100-character truncation). -/
theorem intent_no_match_first_sentence (p : String)
    (h : firstGroupMatch action_groups (lowerL p.data) = none) :
    extract_intent p =
      String.mk (stripWs (p.data.takeWhile (fun c => !(c == '.')))) := by
  obtain ⟨rest, hr⟩ := splitOnDot_head p.data
  simp [extract_intent, h, hr]

/-- Witness for C2's amended theorem at a concrete verb-less prompt. -/
theorem intent_no_match_first_sentence_witness :
    extract_intent "good morning. sunshine" =
      String.mk (stripWs (("good morning. sunshine" : String).data.takeWhile
        (fun c => !(c == '.')))) :=
  intent_no_match_first_sentence "good morning. sunshine" (by decide)

/-- C3: for every prompt, the complexity score lies in `[0, 10]` and is
the clamp of 5, −2 below 10 tokens / +2 above 50 tokens, +1 per clarity
issue, +2 for Technical or Complex and −2 for Simple task types. -/
theorem complexity_score_range_and_formula (st : LyraState) (p : String) :
    (0 ≤ (deconstructT st p).complexity_score ∧
      (deconstructT st p).complexity_score ≤ 10) ∧
    (deconstructT st p).complexity_score =
      max 0 (min 10 ((5 : Int)
        + (if wordCount p < 10 then -2 else if wordCount p > 50 then 2 else 0)
        + ((identify_clarity_issues p).length : Int)
        + (if determine_task_type p (extract_intent p) = TaskType.TECHNICAL ∨
              determine_task_type p (extract_intent p) = TaskType.COMPLEX then 2
           else if determine_task_type p (extract_intent p) = TaskType.SIMPLE then -2
           else 0))) := by
  rw [deconstructT_eq]
  exact ⟨calculate_complexity_bounds p _ _, calculate_complexity_eq p _ _⟩

/-- C4: the creative keyword set is checked first, so any prompt
containing a creative keyword — in particular one that also contains a
technical keyword — is classified Creative. -/
theorem creative_before_technical (p i : String)
    (h : containsAnyOf (pyLower p) creative_keywords = true) :
    determine_task_type p i = TaskType.CREATIVE := by
  simp [determine_task_type, h]

/-- Witness for C4 at a prompt containing both "story" (creative) and
"code" (technical). -/
theorem creative_before_technical_witness :
    containsAnyOf (pyLower "Write a story with code") creative_keywords = true ∧
    containsAnyOf (pyLower "Write a story with code") technical_keywords = true ∧
    determine_task_type "Write a story with code" "" = TaskType.CREATIVE :=
  ⟨by decide, by decide,
    creative_before_technical "Write a story with code" "" (by decide)⟩

/-- C5: `optimize("Write email", platform="other", mode="basic")`
classifies the task as Simple, and its optimized prompt contains the
Simple persona sentence and a Task block containing "email", but no
Constraints block and no Output-requirements block. -/
theorem optimize_write_email_basic_shape :
    (deconstructT initState "Write email").task_type = TaskType.SIMPLE ∧
    strContains (optimizeT initState "Write email" "other" "basic").optimized_prompt
      "You are a helpful assistant focused on providing clear, concise responses." = true ∧
    strContains (optimizeT initState "Write email" "other" "basic").optimized_prompt
      "**Task:** write email" = true ∧
    strContains (optimizeT initState "Write email" "other" "basic").optimized_prompt
      "**Constraints:**" = false ∧
    strContains (optimizeT initState "Write email" "other" "basic").optimized_prompt
      "**Output Requirements:**" = false := by
  decide

/-- C6: platform parsing is case-insensitive substring matching in the
fixed order chatgpt/gpt, claude, gemini; "GPT-4" parses to CHATGPT,
"Claude Opus" parses to CLAUDE, and any string containing none of the
recognized substrings parses to OTHER. -/
theorem parse_platform_spec :
    parse_platform "GPT-4" = AIPlatform.CHATGPT ∧
    parse_platform "Claude Opus" = AIPlatform.CLAUDE ∧
    ∀ s : String, strContains (pyLower s) "chatgpt" = false →
      strContains (pyLower s) "gpt" = false →
      strContains (pyLower s) "claude" = false →
      strContains (pyLower s) "gemini" = false →
      parse_platform s = AIPlatform.OTHER := by
  refine ⟨by decide, by decide, ?_⟩
  intro s h1 h2 h3 h4
  simp [parse_platform, h1, h2, h3, h4]

/-- Witness for C6's fallback clause at an unrecognized platform name. -/
theorem parse_platform_spec_witness :
    parse_platform "llama" = AIPlatform.OTHER :=
  parse_platform_spec.2.2 "llama" (by decide) (by decide) (by decide) (by decide)

/-- C7: `optimize` and `deconstruct` read nothing but their string
arguments — in particular, no instance state: calls with identical
arguments from any two instance states give identical results. -/
theorem optimize_state_independent (s1 s2 : LyraState) (p pl m : String) :
    optimize s1 p pl m = optimize s2 p pl m ∧ deconstruct s1 p = deconstruct s2 p :=
  ⟨rfl, rfl⟩

/-- C8: the pipeline is total — for every string input (the empty string
included) `optimize` and `deconstruct` return a result; the one fallible
Python operation on the way, `word[0]` in `_extract_entities`, is proved
in bounds. -/
theorem pipeline_total (st : LyraState) (p pl m : String) :
    (optimize st p pl m).isSome = true ∧ (deconstruct st p).isSome = true :=
  ⟨optimize_isSome st p pl m, deconstruct_isSome st p⟩

/-- C9: the clarifying questions for any analyzed prompt are the four
triggers (format, audience, constraints, length) checked in fixed order
and truncated to the first three that fired; in particular at most three
questions are returned. -/
theorem clarifying_questions_spec (st : LyraState) (p : String) :
    (generate_clarifying_questions (deconstructT st p)).length ≤ 3 ∧
    generate_clarifying_questions (deconstructT st p) =
      ((if (deconstructT st p).output_requirements.isEmpty then
          ["What format would you like the output in? (e.g., bullet points, paragraph, code)"]
        else []) ++
       (if (deconstructT st p).task_type = TaskType.CREATIVE ∨
           (deconstructT st p).task_type = TaskType.EDUCATIONAL then
          (if !((deconstructT st p).output_requirements.any
              (fun req => strContains (pyLower req) "audience")) then
            ["Who is the target audience?"]
          else [])
        else []) ++
       (if (deconstructT st p).complexity_score > 7 ∧
           (deconstructT st p).constraints.isEmpty then
          ["Are there any specific constraints or requirements I should know about?"]
        else []) ++
       (if !((deconstructT st p).output_requirements.any
            (fun req => startsWithL req.data "Length:".data)) ∧
           (deconstructT st p).task_type ≠ TaskType.TECHNICAL then
          ["What length are you aiming for?"]
        else [])).take 3 :=
  ⟨generate_clarifying_questions_le_three _, generate_clarifying_questions_eq _⟩

/-- C10: every result returned by `optimize` carries a pro tip that is a
present, nonempty string — one of the seven fixed tips (the iteration
tip above complexity 7, the five task-type tips, or the generic
default). -/
theorem pro_tip_always_present (st : LyraState) (p pl m : String)
    (r : OptimizationResult) (h : optimize st p pl m = some r) :
    ∃ t, r.pro_tip = some t ∧ t ≠ "" ∧
      (t = "For complex requests, consider iterating: start with a draft and refine based on the output." ∨
       t = "For creative tasks, consider asking for multiple variations to find the best fit." ∨
       t = "When asking for code, specify your programming language, version, and any frameworks upfront." ∨
       t = "For analysis tasks, provide sample data or clear criteria for evaluation." ∨
       t = "Learning works best when you ask follow-up questions and request examples." ∨
       t = "Break complex tasks into smaller subtasks for better results." ∨
       t = "Be specific about what success looks like for your request.") := by
  obtain ⟨a, ha⟩ := Option.isSome_iff_exists.mp (deconstruct_isSome st p)
  unfold optimize at h
  rw [ha] at h
  simp only [Option.map_some', Option.some.injEq] at h
  subst h
  refine ⟨generate_pro_tip a (if m = "auto" then auto_detect_mode p else parse_mode m),
    rfl, ?_, ?_⟩
  · exact (generate_pro_tip_cases a _).1
  · exact (generate_pro_tip_cases a _).2

/-- Witness for C10 at a concrete invocation. -/
theorem pro_tip_always_present_witness :
    ∃ t, (optimizeT initState "Help" "other" "basic").pro_tip = some t ∧ t ≠ "" ∧
      (t = "For complex requests, consider iterating: start with a draft and refine based on the output." ∨
       t = "For creative tasks, consider asking for multiple variations to find the best fit." ∨
       t = "When asking for code, specify your programming language, version, and any frameworks upfront." ∨
       t = "For analysis tasks, provide sample data or clear criteria for evaluation." ∨
       t = "Learning works best when you ask follow-up questions and request examples." ∨
       t = "Break complex tasks into smaller subtasks for better results." ∨
       t = "Be specific about what success looks like for your request.") :=
  pro_tip_always_present initState "Help" "other" "basic"
    (optimizeT initState "Help" "other" "basic") rfl
